import Mathlib

/-!
Verification of the Click2Eat customer-service backend.

A shallow embedding of `src/controller/customer.controller.js` and
`src/routes/customer.route.js`: the customer data model, the document
store operations the controller uses, the JWT issue/verify primitive,
and the six request handlers (`register`, `login`, `getProfile`,
`update`, `deleteProfile`, `getAll`).  Each handler is translated as an
executable Lean function from its inputs (environment configuration,
request fields, fresh randomness for the bcrypt salt, the outcome of the
external image upload) and the store state to a response value and the
new store state.
-/

namespace Click2Eat

/-- JavaScript truthiness for an optional string field of `req.body`:
`undefined` and the empty string are falsy. -/
def truthyStr : Option String → Option String
  | none => none
  | some s => if s = "" then none else some s

/-- A stored password value.  bcrypt output is a tagged, salted hash
string, syntactically distinct from any plaintext; we model the two
shapes as constructors.  `bcryptHash cost salt pw` stands for the
bcrypt digest of `pw` under `cost` rounds with the random `salt`. -/
inductive PasswordValue where
  | plain (s : String)
  | bcryptHash (cost : Nat) (salt : Nat) (pw : String)
deriving DecidableEq, Repr

/-- Embeds `bcrypt.hash(password, rounds)` with the fresh random salt
made explicit. -/
def bcryptHashFn (password : String) (rounds : Nat) (salt : Nat) : PasswordValue :=
  PasswordValue.bcryptHash rounds salt password

/-- Embeds `bcrypt.compare(plaintext, stored)`: true iff `stored` is a
bcrypt digest of exactly `plaintext`.  A malformed (non-hash) stored
value never matches. -/
def bcryptCompare (plaintext : String) (stored : PasswordValue) : Bool :=
  match stored with
  | PasswordValue.plain _ => false
  | PasswordValue.bcryptHash _ _ pw => pw == plaintext

/-- A persisted customer document (`models/customer.model`). -/
structure Customer where
  _id : Nat
  email : String
  username : String
  password : PasswordValue
  phone : Option String
  image : Option String
  createdAt : Nat
deriving DecidableEq, Repr

/-- The document store: the list of customer records plus the next
store-assigned `_id`. -/
structure DB where
  customers : List Customer
  nextId : Nat
deriving DecidableEq, Repr

/-- Embeds `Customer.findOne(pred)`: the first record satisfying the
predicate. -/
def findOneDB (db : DB) (p : Customer → Bool) : Option Customer :=
  db.customers.find? p

/-- Embeds `Customer.findById(id)`.  Mongoose translates
`findById(undefined)` into a query matching nothing, hence the
`Option` id. -/
def findByIdDB (db : DB) (id : Option Nat) : Option Customer :=
  match id with
  | none => none
  | some i => db.customers.find? (fun c => c._id == i)

/-- Embeds `customer.save()`: write back the (edited) record over the
stored record with the same `_id`, leaving every other record in
place. -/
def saveDB (db : DB) (c : Customer) : DB :=
  { db with customers := db.customers.map (fun o => if o._id == c._id then c else o) }

/-- Embeds `Customer.findByIdAndDelete(id)`: remove the record with
that `_id`, if any. -/
def deleteByIdDB (db : DB) (i : Nat) : DB :=
  { db with customers := db.customers.filter (fun c => ¬ c._id == i) }

/-- Process environment: the two configuration variables the controller
reads (`process.env.JWT_SECRET`, `process.env.JWT_EXPIRES`), each
possibly unset. -/
structure Env where
  jwtSecretVar : Option String
  jwtExpiresVar : Option String
deriving DecidableEq, Repr

/-- Line 6: `const JWT_SECRET = process.env.JWT_SECRET ||
"your-secret-key"` (JS `||` treats the empty string as falsy). -/
def JWT_SECRET (env : Env) : String :=
  match env.jwtSecretVar with
  | none => "your-secret-key"
  | some s => if s = "" then "your-secret-key" else s

/-- Line 7: `const JWT_EXPIRES = process.env.JWT_EXPIRES || "7d"`. -/
def JWT_EXPIRES (env : Env) : String :=
  match env.jwtExpiresVar with
  | none => "7d"
  | some s => if s = "" then "7d" else s

/-- Line 8: `const SALT_ROUNDS = 10`. -/
def SALT_ROUNDS : Nat := 10

/-- A JWT payload as this controller signs and reads it: `register`
signs `{id, email}`, `login` signs
`{customer_id, email, username, phone, image}`, and the admin handler
reads `is_admin`.  Absent keys are `none` / `false`. -/
structure Claims where
  id : Option Nat := none
  customer_id : Option Nat := none
  email : Option String := none
  username : Option String := none
  phone : Option String := none
  image : Option String := none
  is_admin : Bool := false
deriving DecidableEq, Repr

/-- A signed token: the payload, the secret it was signed with and the
`expiresIn` option. -/
structure Token where
  claims : Claims
  signedWith : String
  expiresIn : String
deriving DecidableEq, Repr

/-- Embeds `jwt.sign(payload, secret, opts)`.  `jsonwebtoken` throws
`secretOrPrivateKey must have a value` when the secret is `undefined`
or empty, so the secret argument is optional and signing is fallible. -/
def jwtSign (payload : Claims) (secret : Option String) (expiresIn : String) :
    Except String Token :=
  match secret with
  | none => Except.error "secretOrPrivateKey must have a value"
  | some s =>
    if s = "" then Except.error "secretOrPrivateKey must have a value"
    else Except.ok { claims := payload, signedWith := s, expiresIn := expiresIn }

/-- Embeds `jwt.verify(token, secret)`: the payload when the signature
checks out against `secret`, failure otherwise. -/
def jwtVerify (tok : Token) (secret : String) : Except String Claims :=
  if tok.signedWith == secret then Except.ok tok.claims
  else Except.error "invalid signature"

/-- The customer summary object `register` returns: exactly the fields
`{id, email, username, image}` of its response body — no password
field exists in it. -/
structure RegisterSummary where
  id : Nat
  email : String
  username : String
  image : Option String
deriving DecidableEq, Repr

/-- The customer summary object `login` (and `update`/`getProfile`
modulo `createdAt`) returns: `{customer_id, email, username, phone,
image}` — no password field exists in it. -/
structure CustomerSummary where
  customer_id : Nat
  email : String
  username : String
  phone : Option String
  image : Option String
deriving DecidableEq, Repr

/-- Possible HTTP responses of `register`. -/
inductive RegisterResult where
  | badRequest (message : String)
  | conflict (message : String)
  | created (message : String) (token : Token) (customer : RegisterSummary)
  | serverError (message : String)
deriving DecidableEq, Repr

/-- Handler for `POST /register` (`register` in
`customer.controller.js`).
Inputs: the process environment, `Date.now` (for `createdAt`), the
fresh bcrypt salt, the three body fields, and the store.  Note the
token is signed with `process.env.JWT_SECRET` directly (line 66), not
the fallback constant `JWT_SECRET`; `Customer.create` runs before
`jwt.sign`, so a signing failure is caught after the record was
persisted. -/
def register (env : Env) (now salt : Nat)
    (bodyEmail bodyUsername bodyPassword : Option String) (db : DB) :
    RegisterResult × DB :=
  match truthyStr bodyEmail, truthyStr bodyUsername, truthyStr bodyPassword with
  | some email, some username, some password =>
    match findOneDB db (fun c => c.email == email || c.username == username) with
    | some _ => (RegisterResult.conflict "Customer already exists", db)
    | none =>
      let hashedPassword := bcryptHashFn password SALT_ROUNDS salt
      let newCustomer : Customer :=
        { _id := db.nextId, email := email, username := username,
          password := hashedPassword, phone := none, image := none,
          createdAt := now }
      let db' : DB := { customers := db.customers ++ [newCustomer], nextId := db.nextId + 1 }
      match jwtSign { id := some newCustomer._id, email := some newCustomer.email }
          env.jwtSecretVar "7d" with
      | Except.error _ => (RegisterResult.serverError "Server error", db')
      | Except.ok token =>
        (RegisterResult.created "Registration successful" token
          { id := newCustomer._id, email := newCustomer.email,
            username := newCustomer.username, image := newCustomer.image }, db')
  | _, _, _ => (RegisterResult.badRequest "All fields are required", db)

/-- Possible HTTP responses of `login`. -/
inductive LoginResult where
  | badRequest (message : String)
  | unauthorized (message : String)
  | ok (message : String) (customer : CustomerSummary) (token : Token)
  | serverError (message : String)
deriving DecidableEq, Repr

/-- Handler for `POST /login` (`login` in `customer.controller.js`).
Signs with the fallback constant `JWT_SECRET` and ttl `JWT_EXPIRES`. -/
def login (env : Env) (bodyEmail bodyPassword : Option String) (db : DB) :
    LoginResult :=
  match truthyStr bodyEmail, truthyStr bodyPassword with
  | some email, some password =>
    match findOneDB db (fun c => c.email == email) with
    | none => LoginResult.unauthorized "Invalid email or password"
    | some customer =>
      if bcryptCompare password customer.password then
        match jwtSign
            { customer_id := some customer._id, email := some customer.email,
              username := some customer.username, phone := customer.phone,
              image := customer.image }
            (some (JWT_SECRET env)) (JWT_EXPIRES env) with
        | Except.error _ => LoginResult.serverError "Internal server error"
        | Except.ok token =>
          LoginResult.ok "Login successful"
            { customer_id := customer._id, email := customer.email,
              username := customer.username, phone := customer.phone,
              image := customer.image } token
      else LoginResult.unauthorized "Invalid email or password"
  | _, _ => LoginResult.badRequest "Email and password required"

/-- Modelled from the spec: the Auth Gate middleware
(`middleware/authMiddleware`, not present under `src/`).  Per §4.3 it
reads the bearer token from the authorization header (absence →
unauthorized), verifies it, and on success attaches the decoded claims
to the request's identity context (`req.customer`), which downstream
code reads. -/
def authGate (env : Env) (authHeader : Option Token) : Except String Claims :=
  match authHeader with
  | none => Except.error "unauthorized"
  | some tok =>
    match jwtVerify tok (JWT_SECRET env) with
    | Except.error _ => Except.error "unauthorized"
    | Except.ok claims => Except.ok claims

/-- Possible HTTP responses of `getProfile` (`createdAt` included). -/
inductive ProfileResult where
  | notFound (message : String)
  | ok (customer : CustomerSummary) (createdAt : Nat)
  | serverError (message : String)
deriving DecidableEq, Repr

/-- Handler for `GET /profile` (`getProfile` in
`customer.controller.js`): looks up
`Customer.findById(req.customer.customer_id)` — the `customer_id` key
of the identity context attached by the Auth Gate. -/
def getProfile (reqCustomer : Claims) (db : DB) : ProfileResult :=
  match findByIdDB db reqCustomer.customer_id with
  | none => ProfileResult.notFound "Customer not found"
  | some customer =>
    ProfileResult.ok
      { customer_id := customer._id, email := customer.email,
        username := customer.username, phone := customer.phone,
        image := customer.image } customer.createdAt

/-- Request shape of `PUT /profile/:id`: the path parameter, the four optional
body fields, the optional uploaded file (`req.file`, a byte buffer
modelled by a tag), and the identity context attached by
`authenticateToken`. -/
structure UpdateReq where
  params_id : Nat
  bodyUsername : Option String := none
  bodyEmail : Option String := none
  bodyPhone : Option String := none
  bodyPassword : Option String := none
  file : Option Nat := none
  customer : Claims := {}
deriving DecidableEq, Repr

/-- Possible HTTP responses of `update`. -/
inductive UpdateResult where
  | notFound (message : String)
  | ok (message : String) (customer : CustomerSummary)
  | serverError (message : String)
deriving DecidableEq, Repr

/-- The field-edit chain of `update` (controller lines 195-198): each
body field, when truthy, overwrites the corresponding record field;
`password` is re-hashed with `SALT_ROUNDS` and the fresh `salt`. -/
def applyEdits (req : UpdateReq) (salt : Nat) (customer : Customer) : Customer :=
  let c1 := match truthyStr req.bodyPassword with
    | some password => { customer with password := bcryptHashFn password SALT_ROUNDS salt }
    | none => customer
  let c2 := match truthyStr req.bodyUsername with
    | some username => { c1 with username := username }
    | none => c1
  let c3 := match truthyStr req.bodyEmail with
    | some email => { c2 with email := email }
    | none => c2
  match truthyStr req.bodyPhone with
  | some phone => { c3 with phone := some phone }
  | none => c3

/-- Handler for `PUT /profile/:id` (`update` in
`customer.controller.js`).
`uploadResult` is the outcome of `uploadToCloudinary(req.file.buffer)`
when a file is present (the secure URL, or a rejection); a rejection is
caught by the handler's `catch` before `customer.save()` ever runs.
`salt` is the fresh bcrypt salt used when `password` is present. -/
def update (req : UpdateReq) (uploadResult : Except Unit String) (salt : Nat)
    (db : DB) : UpdateResult × DB :=
  match findByIdDB db (some req.params_id) with
  | none => (UpdateResult.notFound "Customer not found", db)
  | some customer =>
    let c4 := applyEdits req salt customer
    match req.file with
    | some _ =>
      match uploadResult with
      | Except.error _ => (UpdateResult.serverError "Internal server error", db)
      | Except.ok cloudinaryUrl =>
        let c5 := { c4 with image := some cloudinaryUrl }
        (UpdateResult.ok "Profile updated successfully"
          { customer_id := c5._id, email := c5.email, username := c5.username,
            phone := c5.phone, image := c5.image }, saveDB db c5)
    | none =>
      (UpdateResult.ok "Profile updated successfully"
        { customer_id := c4._id, email := c4.email, username := c4.username,
          phone := c4.phone, image := c4.image }, saveDB db c4)

/-- Request shape of `DELETE /profile/:id`: the path parameter and the
identity context attached by `authenticateToken`. -/
structure DeleteReq where
  params_id : Nat
  customer : Claims := {}
deriving DecidableEq, Repr

/-- Possible HTTP responses of `deleteProfile`. -/
inductive DeleteResult where
  | notFound (message : String)
  | ok (message : String)
  | serverError (message : String)
deriving DecidableEq, Repr

/-- Handler for `DELETE /profile/:id` (`deleteProfile` in
`customer.controller.js`). -/
def deleteProfile (req : DeleteReq) (db : DB) : DeleteResult × DB :=
  match findByIdDB db (some req.params_id) with
  | none => (DeleteResult.notFound "Customer not found", db)
  | some _ => (DeleteResult.ok "Profile deleted successfully", deleteByIdDB db req.params_id)

/-- Possible HTTP responses of `getAll`: the full record list is
returned verbatim (password hashes included). -/
inductive GetAllResult where
  | forbidden (message : String)
  | ok (list : List Customer)
  | serverError (message : String)
deriving DecidableEq, Repr

/-- Handler for `GET /customer` (`getAll` in
`customer.controller.js`): checks
`req.user?.is_admin` inside the handler itself (403 on failure), then
returns `Customer.find()` — every record, verbatim. -/
def getAll (reqUser : Option Claims) (db : DB) : GetAllResult :=
  if (match reqUser with
      | some u => u.is_admin
      | none => false) then
    GetAllResult.ok db.customers
  else GetAllResult.forbidden "Access denied"

/-- Truthiness of the `is_admin` flag of an optional identity, exactly
as the optional-chaining expression `req.user?.is_admin` evaluates:
false when the identity is absent. -/
def identityIsAdmin : Option Claims → Bool
  | some u => u.is_admin
  | none => false

/-- A record's password field holds a bcrypt digest with cost
`SALT_ROUNDS`, and in particular is not any raw plaintext value. -/
def passwordIsHashed (c : Customer) : Prop :=
  (∃ s pw, c.password = PasswordValue.bcryptHash SALT_ROUNDS s pw)
  ∧ ∀ pl, c.password ≠ PasswordValue.plain pl

/-- Every stored record's password field is a bcrypt digest. -/
def hashedAtRest (db : DB) : Prop :=
  ∀ c ∈ db.customers, passwordIsHashed c

/-- An environment with both configuration variables set. -/
def envSecretSet : Env := { jwtSecretVar := some "s3cret", jwtExpiresVar := some "1h" }

/-- An environment with neither configuration variable set. -/
def envUnset : Env := { jwtSecretVar := none, jwtExpiresVar := none }

/-- The empty store. -/
def emptyDB : DB := { customers := [], nextId := 1 }

/-- The record that registering `(a@b.c, alice, pw)` against `emptyDB`
creates (with `Date.now = 0` and bcrypt salt `0`). -/
def aliceRecord : Customer :=
  { _id := 1, email := "a@b.c", username := "alice",
    password := PasswordValue.bcryptHash 10 0 "pw",
    phone := none, image := none, createdAt := 0 }

/-- The store after that registration. -/
def dbAfterRegister : DB := { customers := [aliceRecord], nextId := 2 }

/-- The token that registration returns under `envSecretSet`. -/
def tokRegistered : Token :=
  { claims := { id := some 1, email := some "a@b.c" },
    signedWith := "s3cret", expiresIn := "7d" }

/-- The fallback constant is never the empty string: `JWT_SECRET`
always yields a usable signing secret. -/
theorem JWT_SECRET_ne_empty (env : Env) : JWT_SECRET env ≠ "" := by
  unfold JWT_SECRET
  cases env.jwtSecretVar with
  | none => decide
  | some s =>
    by_cases hs : s = "" <;> simp [hs]

/-- Signing with a present, non-empty secret always succeeds and
stamps the requested ttl on the token. -/
theorem jwtSign_some (payload : Claims) (s e : String) (hs : s ≠ "") :
    jwtSign payload (some s) e
      = Except.ok { claims := payload, signedWith := s, expiresIn := e } := by
  simp [jwtSign, hs]

/-- A record found by `findOneDB` is a stored record. -/
theorem mem_of_findOneDB {db : DB} {p : Customer → Bool} {c : Customer}
    (h : findOneDB db p = some c) : c ∈ db.customers :=
  List.mem_of_find?_eq_some h

/-- A record found by `findByIdDB` is a stored record. -/
theorem mem_of_findByIdDB {db : DB} {i : Nat} {c : Customer}
    (h : findByIdDB db (some i) = some c) : c ∈ db.customers := by
  unfold findByIdDB at h
  exact List.mem_of_find?_eq_some h

/-- After `customer.save()`, every stored record is either an original
record or the saved one. -/
theorem mem_saveDB {db : DB} {c c' : Customer}
    (h : c' ∈ (saveDB db c).customers) : c' ∈ db.customers ∨ c' = c := by
  unfold saveDB at h
  simp only [List.mem_map] at h
  obtain ⟨o, ho, heq⟩ := h
  cases hid : (o._id == c._id) with
  | true =>
    rw [hid] at heq
    simp at heq
    exact Or.inr heq.symm
  | false =>
    rw [hid] at heq
    simp at heq
    exact Or.inl (heq ▸ ho)

/-- The edit chain either leaves the password field alone or writes the
bcrypt hash (cost `SALT_ROUNDS`, fresh salt) of the truthy `password`
body field. -/
theorem applyEdits_password (req : UpdateReq) (salt : Nat) (c : Customer) :
    (applyEdits req salt c).password = c.password
    ∨ ∃ pw, truthyStr req.bodyPassword = some pw
        ∧ (applyEdits req salt c).password
            = PasswordValue.bcryptHash SALT_ROUNDS salt pw := by
  unfold applyEdits
  cases hpw : truthyStr req.bodyPassword with
  | none =>
    left
    cases truthyStr req.bodyUsername <;> cases truthyStr req.bodyEmail <;>
      cases truthyStr req.bodyPhone <;> simp
  | some pw =>
    right
    refine ⟨pw, rfl, ?_⟩
    cases truthyStr req.bodyUsername <;> cases truthyStr req.bodyEmail <;>
      cases truthyStr req.bodyPhone <;> simp [bcryptHashFn]

/-- C1: the claim fails on the code.  Register succeeds and issues a
token whose payload uses the claim key `id` (with `customer_id`
absent), the Auth Gate accepts that token and attaches its claims as
the identity context, yet GetProfile — which looks up by the
identity's `customer_id` key — answers `404 Customer not found` even
though the registered record is in the store.  The register token
therefore never resolves the customer that registered. -/
theorem register_token_fails_getProfile :
    register envSecretSet 0 0 (some "a@b.c") (some "alice") (some "pw") emptyDB
      = (RegisterResult.created "Registration successful" tokRegistered
          { id := 1, email := "a@b.c", username := "alice", image := none },
         dbAfterRegister)
    ∧ authGate envSecretSet (some tokRegistered) = Except.ok tokRegistered.claims
    ∧ tokRegistered.claims.customer_id = none
    ∧ getProfile tokRegistered.claims dbAfterRegister
        = ProfileResult.notFound "Customer not found"
    ∧ dbAfterRegister.customers = [aliceRecord] :=
  ⟨rfl, rfl, rfl, rfl, rfl⟩

/-- C2: the claim fails on the code.  With no `JWT_SECRET` in the
environment, Login signs with the fallback constant
(`"your-secret-key"`) and succeeds, but Register signs with the raw
`process.env.JWT_SECRET` (line 66) — which is absent, so `jwt.sign`
throws and the handler answers `500 Server error` (after the record
was already created).  The two paths neither share the default secret
nor both succeed. -/
theorem register_signs_with_raw_env_secret :
    register envUnset 0 0 (some "a@b.c") (some "alice") (some "pw") emptyDB
      = (RegisterResult.serverError "Server error", dbAfterRegister)
    ∧ login envUnset (some "a@b.c") (some "pw") dbAfterRegister
      = LoginResult.ok "Login successful"
          { customer_id := 1, email := "a@b.c", username := "alice",
            phone := none, image := none }
          { claims := { customer_id := some 1, email := some "a@b.c",
                        username := some "alice", phone := none, image := none },
            signedWith := "your-secret-key", expiresIn := "7d" }
    ∧ JWT_SECRET envUnset = "your-secret-key" :=
  ⟨rfl, rfl, rfl⟩

/-- C3: `getAll` answers `403 Access denied` exactly when the request
identity (`req.user`) does not carry a truthy `is_admin` flag — the
check sits inside the handler itself — and with an admin identity it
returns the stored customer list verbatim, password hashes included. -/
theorem getAll_admin_gate :
    ∀ (reqUser : Option Claims) (db : DB),
      (getAll reqUser db = GetAllResult.forbidden "Access denied"
        ↔ identityIsAdmin reqUser = false)
      ∧ (identityIsAdmin reqUser = true →
          getAll reqUser db = GetAllResult.ok db.customers) := by
  intro reqUser db
  cases reqUser with
  | none => simp [getAll, identityIsAdmin]
  | some u => cases h : u.is_admin <;> simp [getAll, identityIsAdmin, h]

/-- C3 witness: an admin identity over the empty store gets the
verbatim (empty) list. -/
theorem getAll_admin_gate_witness :
    getAll (some { is_admin := true }) emptyDB = GetAllResult.ok emptyDB.customers :=
  (getAll_admin_gate (some { is_admin := true }) emptyDB).2 rfl

/-- C4: with both fields present, Login answers `401` with the very
same message `Invalid email or password` both when no customer matches
the email and when a customer matches but the password does not verify
against the stored hash — the response does not reveal which check
failed. -/
theorem login_invalid_message_uniform :
    ∀ (env : Env) (db : DB) (email password : String),
      email ≠ "" → password ≠ "" →
      ((findOneDB db (fun c => c.email == email) = none →
          login env (some email) (some password) db
            = LoginResult.unauthorized "Invalid email or password")
       ∧ (∀ c, findOneDB db (fun c => c.email == email) = some c →
            bcryptCompare password c.password = false →
            login env (some email) (some password) db
              = LoginResult.unauthorized "Invalid email or password")) := by
  intro env db email password he hp
  constructor
  · intro hnone
    simp [login, truthyStr, he, hp, hnone]
  · intro c hsome hcmp
    simp [login, truthyStr, he, hp, hsome, hcmp]

/-- C4 witness: unknown email over the empty store. -/
theorem login_invalid_message_uniform_witness :
    login envUnset (some "x@y.z") (some "pw") emptyDB
      = LoginResult.unauthorized "Invalid email or password" :=
  (login_invalid_message_uniform envUnset emptyDB "x@y.z" "pw"
    (by decide) (by decide)).1 rfl

/-- C5: neither `update` nor `deleteProfile` compares the path id
against the token identity: their outcome is unchanged under an
arbitrary replacement of the attached identity context, and delete
proceeds on the path-id record whenever it exists, whatever identity
the token carries. -/
theorem update_delete_no_ownership_check :
    ∀ (r : UpdateReq) (ident : Claims) (u : Except Unit String) (salt : Nat)
      (db : DB) (rd : DeleteReq) (identD : Claims) (db2 : DB),
      update { r with customer := ident } u salt db = update r u salt db
      ∧ deleteProfile { rd with customer := identD } db2 = deleteProfile rd db2
      ∧ (∀ c0, findByIdDB db2 (some rd.params_id) = some c0 →
          (deleteProfile rd db2).1 = DeleteResult.ok "Profile deleted successfully") := by
  intro r ident u salt db rd identD db2
  refine ⟨rfl, rfl, ?_⟩
  intro c0 h
  simp [deleteProfile, h]

/-- C5 witness: a delete whose token identity (`customer_id = 99`)
differs from the path id (`1`) still deletes and answers success. -/
theorem update_delete_no_ownership_check_witness :
    (deleteProfile { params_id := 1, customer := { customer_id := some 99 } }
        dbAfterRegister).1
      = DeleteResult.ok "Profile deleted successfully" :=
  (update_delete_no_ownership_check { params_id := 1 } {} (Except.ok "") 0 emptyDB
    { params_id := 1, customer := { customer_id := some 99 } } {}
    dbAfterRegister).2.2 aliceRecord rfl

/-- C6: when the request carries image bytes and the upload to the
image-hosting collaborator fails, no patch edit is persisted: the
store is returned unchanged (the failure is caught before
`customer.save()` runs) and, when the record exists, the response is
the 500 error. -/
theorem update_upload_failure_atomic :
    ∀ (r : UpdateReq) (salt : Nat) (db : DB) (f : Nat),
      r.file = some f →
      ((update r (Except.error ()) salt db).2 = db
       ∧ ((findByIdDB db (some r.params_id)).isSome = true →
           (update r (Except.error ()) salt db).1
             = UpdateResult.serverError "Internal server error")) := by
  intro r salt db f hf
  cases h : findByIdDB db (some r.params_id) with
  | none =>
    refine ⟨?_, ?_⟩
    · simp [update, h]
    · intro hs
      simp at hs
  | some c =>
    refine ⟨?_, fun _ => ?_⟩ <;> simp [update, h, hf]

/-- C6 witness: a failing upload on an update that also patches the
phone leaves the store exactly as it was. -/
theorem update_upload_failure_atomic_witness :
    (update { params_id := 1, bodyPhone := some "012", file := some 0 }
        (Except.error ()) 0 dbAfterRegister).2 = dbAfterRegister :=
  (update_upload_failure_atomic
    { params_id := 1, bodyPhone := some "012", file := some 0 }
    0 dbAfterRegister 0 rfl).1

/-- C7: updating an existing customer with a patch containing only
`phone` (no image bytes) rewrites exactly the phone field: the saved
record is the found record with only `phone` replaced, so email,
username, password and image are untouched. -/
theorem update_phone_only_frame :
    ∀ (pid : Nat) (p : String) (ident : Claims) (u : Except Unit String)
      (salt : Nat) (db : DB) (c : Customer),
      p ≠ "" →
      findByIdDB db (some pid) = some c →
      update { params_id := pid, bodyPhone := some p, customer := ident } u salt db
        = (UpdateResult.ok "Profile updated successfully"
            { customer_id := c._id, email := c.email, username := c.username,
              phone := some p, image := c.image },
           saveDB db { c with phone := some p }) := by
  intro pid p ident u salt db c hp hc
  simp [update, hc, applyEdits, truthyStr, hp]

/-- C7 witness: patching only the phone of the registered record. -/
theorem update_phone_only_frame_witness :
    update { params_id := 1, bodyPhone := some "012", customer := {} }
        (Except.ok "") 0 dbAfterRegister
      = (UpdateResult.ok "Profile updated successfully"
          { customer_id := 1, email := "a@b.c", username := "alice",
            phone := some "012", image := none },
         saveDB dbAfterRegister { aliceRecord with phone := some "012" }) :=
  update_phone_only_frame 1 "012" {} (Except.ok "") 0 dbAfterRegister aliceRecord
    (by decide) rfl

/-- C8: when some stored customer already has the given email or the
given username, Register answers `409 Customer already exists` — the
single combined existence check fires for either collision — and the
store is unchanged (no record created). -/
theorem register_conflict_on_duplicate :
    ∀ (env : Env) (now salt : Nat) (email username password : String) (db : DB),
      email ≠ "" → username ≠ "" → password ≠ "" →
      (∃ c, c ∈ db.customers ∧ (c.email = email ∨ c.username = username)) →
      register env now salt (some email) (some username) (some password) db
        = (RegisterResult.conflict "Customer already exists", db) := by
  intro env now salt email username password db he hu hp hex
  have hfind : (db.customers.find?
      (fun c => c.email == email || c.username == username)).isSome = true := by
    rw [List.find?_isSome]
    obtain ⟨c, hc, hor⟩ := hex
    refine ⟨c, hc, ?_⟩
    cases hor with
    | inl h => simp [h]
    | inr h => simp [h]
  cases hfound : db.customers.find?
      (fun c => c.email == email || c.username == username) with
  | none =>
    rw [hfound] at hfind
    simp at hfind
  | some c =>
    simp [register, truthyStr, he, hu, hp, findOneDB, hfound]

/-- C8 witness: registering a second account with the already-taken
email `a@b.c` but a fresh username is rejected with the conflict
response and the store is untouched. -/
theorem register_conflict_on_duplicate_witness :
    register envUnset 5 7 (some "a@b.c") (some "bob") (some "pw2") dbAfterRegister
      = (RegisterResult.conflict "Customer already exists", dbAfterRegister) :=
  register_conflict_on_duplicate envUnset 5 7 "a@b.c" "bob" "pw2" dbAfterRegister
    (by decide) (by decide) (by decide)
    ⟨aliceRecord, by simp [dbAfterRegister], Or.inl rfl⟩

/-- C9: a successful Register creates the record with `image` absent,
returns a summary holding exactly `{id, email, username, image}` (the
`RegisterSummary` type has no password field), and issues a token with
claims `{id, email}` and the fixed ttl `7d` — even when the
environment configures a different `JWT_EXPIRES` — while every
successful Login issues its token with the configurable default ttl
`JWT_EXPIRES`. -/
theorem register_success_shape :
    ∀ (env : Env) (now salt : Nat) (email username password s : String) (db : DB),
      env.jwtSecretVar = some s → s ≠ "" →
      email ≠ "" → username ≠ "" → password ≠ "" →
      findOneDB db (fun c => c.email == email || c.username == username) = none →
      (register env now salt (some email) (some username) (some password) db
        = (RegisterResult.created "Registration successful"
            { claims := { id := some db.nextId, email := some email },
              signedWith := s, expiresIn := "7d" }
            { id := db.nextId, email := email, username := username, image := none },
           { customers := db.customers ++
               [{ _id := db.nextId, email := email, username := username,
                  password := PasswordValue.bcryptHash SALT_ROUNDS salt password,
                  phone := none, image := none, createdAt := now }],
             nextId := db.nextId + 1 }))
      ∧ (∀ (em pw : Option String) (db2 : DB) (cs : CustomerSummary) (tok : Token),
           login env em pw db2 = LoginResult.ok "Login successful" cs tok →
           tok.expiresIn = JWT_EXPIRES env) := by
  intro env now salt email username password s db hs hs' he hu hp hfresh
  constructor
  · simp [register, truthyStr, he, hu, hp, hfresh, jwtSign, hs, hs',
      bcryptHashFn, SALT_ROUNDS]
  · intro em pw db2 cs tok h
    unfold login at h
    split at h
    · split at h
      · exact absurd h (by simp)
      · split at h
        · split at h
          · exact absurd h (by simp)
          · rename_i token heq
            rw [jwtSign_some _ _ _ (JWT_SECRET_ne_empty env)] at heq
            injection heq with heq2
            injection h with hmsg hcs htok
            subst htok
            rw [← heq2]
        · exact absurd h (by simp)
    · exact absurd h (by simp)

/-- C9 witness: registering under an environment whose `JWT_EXPIRES`
is `1h` still issues the register token with ttl `7d`. -/
theorem register_success_shape_witness :
    register envSecretSet 0 0 (some "a@b.c") (some "alice") (some "pw") emptyDB
      = (RegisterResult.created "Registration successful" tokRegistered
          { id := 1, email := "a@b.c", username := "alice", image := none },
         dbAfterRegister) :=
  (register_success_shape envSecretSet 0 0 "a@b.c" "alice" "pw" "s3cret" emptyDB
    rfl (by decide) (by decide) (by decide) (by decide) rfl).1

/-- C10: both password-writing operations preserve the at-rest
invariant: starting from a store whose records all hold bcrypt digests
with cost `SALT_ROUNDS = 10`, the store after any `register` call and
the store after any `update` call again hold only such digests — never
a raw plaintext value. -/
theorem password_hashed_after_writes :
    ∀ (env : Env) (now salt : Nat) (be bu bp : Option String) (db : DB)
      (r : UpdateReq) (u : Except Unit String),
      hashedAtRest db →
      hashedAtRest (register env now salt be bu bp db).2
      ∧ hashedAtRest (update r u salt db).2 := by
  intro env now salt be bu bp db r u h
  have hnew : ∀ (em un pw : String),
      hashedAtRest
        { customers := db.customers ++
            [({ _id := db.nextId, email := em, username := un,
                password := bcryptHashFn pw SALT_ROUNDS salt,
                phone := none, image := none, createdAt := now } : Customer)],
          nextId := db.nextId + 1 } := by
    intro em un pw z hz
    rcases List.mem_append.mp hz with hin | hone
    · exact h z hin
    · rw [List.mem_singleton] at hone
      subst hone
      exact ⟨⟨salt, pw, rfl⟩, fun pl hpl => by simp [bcryptHashFn] at hpl⟩
  constructor
  · unfold register
    split
    · split
      · exact h
      · dsimp only
        split
        · exact hnew _ _ _
        · exact hnew _ _ _
    · exact h
  · cases hfind : findByIdDB db (some r.params_id) with
    | none =>
      simp only [update, hfind]
      exact h
    | some customer =>
      have hcust := h customer (mem_of_findByIdDB hfind)
      have hedit : passwordIsHashed (applyEdits r salt customer) := by
        rcases applyEdits_password r salt customer with hsame | ⟨pw, _, hbc⟩
        · exact ⟨by rw [hsame]; exact hcust.1, by rw [hsame]; exact hcust.2⟩
        · exact ⟨⟨salt, pw, hbc⟩, fun pl hpl => by rw [hbc] at hpl; simp at hpl⟩
      simp only [update, hfind]
      cases r.file with
      | some f =>
        cases u with
        | error e => exact h
        | ok url =>
          intro z hz
          rcases mem_saveDB hz with hin | hEq
          · exact h z hin
          · subst hEq
            exact hedit
      | none =>
        intro z hz
        rcases mem_saveDB hz with hin | hEq
        · exact h z hin
        · subst hEq
          exact hedit

/-- C10 witness: the store produced by a concrete successful
registration satisfies the hashed-at-rest invariant. -/
theorem password_hashed_after_writes_witness :
    hashedAtRest (register envSecretSet 0 0 (some "a@b.c") (some "alice")
      (some "pw") emptyDB).2 :=
  (password_hashed_after_writes envSecretSet 0 0 (some "a@b.c") (some "alice")
    (some "pw") emptyDB { params_id := 1 } (Except.ok "")
    (by intro c hc; simp [emptyDB] at hc)).1

end Click2Eat
